import Mathlib

/-!
Verification of the position-lifecycle and risk-gating engine of a simulated
cryptocurrency trading bot.  The JavaScript sources are shallowly embedded:
prices, balances and percentages become rationals, timestamps become integers,
counters become naturals, and every stateful method becomes an explicit
state-passing function.  Namespace `AssetBot` embeds
`attached_assets/realistic_trading_bot_1751988882641.js`, namespace `RelayBot`
embeds `realistic_bot.js`, namespace `EnhancedBot` embeds the enhanced bot
variant, and namespace `ConfigManager` embeds the business-rule validation of
`attached_assets/config_manager_1751988882641.js`.
-/

namespace AssetBot

/-- Trade direction: the source uses the strings BUY and SELL. -/
inductive Direction where
  | BUY
  | SELL
deriving DecidableEq, Repr

/-- Configuration fields of the bot that the embedded functions read. -/
structure Config where
  maxTradesPerDay : ℕ
  maxConsecutiveLosses : ℕ
  cooldownAfterLoss : ℤ
  maxDailyRisk : ℚ
  stopLossPercent : ℚ
  dailyTargetMax : ℚ
  maxPositionPercent : ℚ
  totalCapital : ℚ
deriving DecidableEq, Repr

/-- An open trade, as pushed onto `state.currentPositions` by `executeTrade`. -/
structure Position where
  symbol : String
  portfolioId : String
  direction : Direction
  entryPrice : ℚ
  quantity : ℚ
  positionSize : ℚ
  stopLossPrice : ℚ
  takeProfitPrice : ℚ
  timestamp : ℤ
deriving DecidableEq, Repr

/-- A sub-portfolio record of `state.subPortfolioBalances`. -/
structure SubPortfolio where
  balance : ℚ
  initialBalance : ℚ
  activePositions : ℤ
  totalTrades : ℕ
  profitLoss : ℚ
  lastTradeTime : Option ℤ
deriving DecidableEq, Repr

/-- The `state.dailyStats` record. -/
structure DailyStats where
  date : String
  tradesCount : ℕ
  profitLoss : ℚ
  wins : ℕ
  losses : ℕ
  winRate : ℚ
deriving DecidableEq, Repr

/-- The bot state mutated by `executeTrade`, `closePosition` and
`managePositions`.  Sub-portfolios are a total map from id to record together
with the list of ids created by `initSubPortfolios`; `dailyTotalRisk`
models the source's `state.dailyStats.totalRisk` accumulator; `closedPnLs`
is the trade ledger written by `saveTrade`, reduced to the realized PnL of
each closed trade. -/
structure BotState where
  currentPositions : List Position
  portfolioIds : List String
  portfolios : String → SubPortfolio
  dailyStats : DailyStats
  consecutiveLosses : ℕ
  lastLossTime : Option ℤ
  dailyTotalRisk : ℚ
  closedPnLs : List ℚ

/-- `calculatePositionSize`: base size balance × maxPositionPercent, volatility
adjustment max(0.5, min(1.5, 1/volatility)), risk adjustment
stopLossPercent / 0.02, capped at 10% of the sub-portfolio balance. -/
def calculatePositionSize (cfg : Config) (balance volatility : ℚ) : ℚ :=
  let baseSize := balance * cfg.maxPositionPercent
  let volatilityAdjustment := max (1/2 : ℚ) (min (3/2 : ℚ) (1 / volatility))
  let riskAdjustment := cfg.stopLossPercent / (2/100 : ℚ)
  let adjustedSize := baseSize * volatilityAdjustment * riskAdjustment
  min adjustedSize (balance * (1/10 : ℚ))

/-- `calculateUnrealizedPnL`: relative price change times position size. -/
def calculateUnrealizedPnL (p : Position) (currentPrice : ℚ) : ℚ :=
  let priceChange :=
    match p.direction with
    | .BUY => currentPrice - p.entryPrice
    | .SELL => p.entryPrice - currentPrice
  (priceChange / p.entryPrice) * p.positionSize

/-- `shouldStopLoss`: BUY closes at or below the stop price, SELL at or above. -/
def shouldStopLoss (p : Position) (currentPrice : ℚ) : Bool :=
  match p.direction with
  | .BUY => currentPrice ≤ p.stopLossPrice
  | .SELL => p.stopLossPrice ≤ currentPrice

/-- `shouldTakeProfit`: BUY closes at or above the take-profit price, SELL at
or below. -/
def shouldTakeProfit (p : Position) (currentPrice : ℚ) : Bool :=
  match p.direction with
  | .BUY => p.takeProfitPrice ≤ currentPrice
  | .SELL => currentPrice ≤ p.takeProfitPrice

/-- `shouldTrailingStop`: after more than four hours in position, close when
the unrealized PnL fraction is below 0.1%. -/
def shouldTrailingStop (p : Position) (now : ℤ) (currentPrice : ℚ) : Bool :=
  let timeInPosition := now - p.timestamp
  let hourInMs : ℤ := 3600000
  if timeInPosition > 4 * hourInMs then
    calculateUnrealizedPnL p currentPrice / p.positionSize < (1/1000 : ℚ)
  else
    false

/-- Close reasons passed to `closePosition` by `managePositions`. -/
inductive CloseReason where
  | STOP_LOSS
  | TAKE_PROFIT
  | TRAILING_STOP
deriving DecidableEq, Repr

/-- The close-condition cascade of `managePositions` for one position: the
stop-loss check, then the take-profit check, then the trailing-stop check,
first match wins. -/
def evaluateClose (p : Position) (now : ℤ) (currentPrice : ℚ) :
    Option CloseReason :=
  if shouldStopLoss p currentPrice then some .STOP_LOSS
  else if shouldTakeProfit p currentPrice then some .TAKE_PROFIT
  else if shouldTrailingStop p now currentPrice then some .TRAILING_STOP
  else none

end AssetBot

namespace AssetBot

/-- `closePosition`: computes the realized PnL at the exit price, credits the
owning sub-portfolio by exactly that PnL, updates the daily stats and the
consecutive-loss counters (a strictly positive PnL is a win and resets the
counter, any other PnL is a loss, increments it and stamps the loss time),
removes the position at the given index from the open list, and appends the
realized PnL to the ledger. -/
def closePosition (st : BotState) (idx : ℕ) (p : Position) (exitPrice : ℚ)
    (now : ℤ) : BotState :=
  let realizedPnL := calculateUnrealizedPnL p exitPrice
  let pf := st.portfolios p.portfolioId
  let pf' : SubPortfolio :=
    { pf with
      balance := pf.balance + realizedPnL
      profitLoss := pf.profitLoss + realizedPnL
      activePositions := pf.activePositions - 1
      lastTradeTime := some now }
  let ds := st.dailyStats
  let wins' := if 0 < realizedPnL then ds.wins + 1 else ds.wins
  let losses' := if 0 < realizedPnL then ds.losses else ds.losses + 1
  let ds' : DailyStats :=
    { ds with
      profitLoss := ds.profitLoss + realizedPnL
      wins := wins'
      losses := losses'
      winRate := (wins' : ℚ) / ((wins' : ℚ) + (losses' : ℚ)) }
  { st with
    portfolios := fun id => if id = p.portfolioId then pf' else st.portfolios id
    dailyStats := ds'
    consecutiveLosses := if 0 < realizedPnL then 0 else st.consecutiveLosses + 1
    lastLossTime := if 0 < realizedPnL then st.lastLossTime else some now
    currentPositions := st.currentPositions.eraseIdx idx
    closedPnLs := st.closedPnLs ++ [realizedPnL] }

/-- `executeTrade`: sizes the position from the assigned sub-portfolio's
balance, builds the trade record with its stop-loss and take-profit levels,
pushes it onto the open-position list, bumps the portfolio's active-position
and trade counters, the daily trade count and the daily risk budget.  The
sub-portfolio balance itself is not modified. -/
def executeTrade (cfg : Config) (st : BotState) (portfolioId symbol : String)
    (direction : Direction) (currentPrice volatility : ℚ) (now : ℤ) :
    BotState :=
  let pf := st.portfolios portfolioId
  let positionSize := calculatePositionSize cfg pf.balance volatility
  let quantity := positionSize / currentPrice
  let stopLossPrice :=
    match direction with
    | .BUY => currentPrice * (1 - cfg.stopLossPercent)
    | .SELL => currentPrice * (1 + cfg.stopLossPercent)
  let takeProfitPrice :=
    match direction with
    | .BUY => currentPrice * (1 + cfg.dailyTargetMax)
    | .SELL => currentPrice * (1 - cfg.dailyTargetMax)
  let trade : Position :=
    { symbol := symbol
      portfolioId := portfolioId
      direction := direction
      entryPrice := currentPrice
      quantity := quantity
      positionSize := positionSize
      stopLossPrice := stopLossPrice
      takeProfitPrice := takeProfitPrice
      timestamp := now }
  let pf' : SubPortfolio :=
    { pf with
      activePositions := pf.activePositions + 1
      totalTrades := pf.totalTrades + 1 }
  { st with
    currentPositions := st.currentPositions ++ [trade]
    portfolios := fun id => if id = portfolioId then pf' else st.portfolios id
    dailyStats :=
      { st.dailyStats with tradesCount := st.dailyStats.tradesCount + 1 }
    dailyTotalRisk := st.dailyTotalRisk + positionSize / cfg.totalCapital }

/-- One iteration of the `forEach` body of `managePositions` at index `k`: the
position list is read live, the symbol's latest close price is looked up,
and the first matching close condition closes the position in place. -/
def manageStep (prices : String → Option ℚ) (now : ℤ) (st : BotState)
    (k : ℕ) : BotState :=
  match st.currentPositions[k]? with
  | none => st
  | some p =>
    match prices p.symbol with
    | none => st
    | some currentPrice =>
      match evaluateClose p now currentPrice with
      | some _ => closePosition st k p currentPrice now
      | none => st

/-- `managePositions`: JavaScript `forEach` fixes the iteration bound at the
array's length on entry, while the callback reads the array live and
`closePosition` splices the closed element out in place. -/
def managePositions (prices : String → Option ℚ) (now : ℤ) (st : BotState) :
    BotState :=
  (List.range st.currentPositions.length).foldl (manageStep prices now) st

/-- The sum of all sub-portfolio balances. -/
def sumBalances (st : BotState) : ℚ :=
  (st.portfolioIds.map (fun id => (st.portfolios id).balance)).sum

/-- The sum of `positionSize` over all open positions. -/
def sumOpenSizes (st : BotState) : ℚ :=
  (st.currentPositions.map Position.positionSize).sum

/-- The capital-conservation equation exactly as the specification claims
it: balances plus open position sizes equal total capital plus the realized
PnL of all closed trades. -/
def specConservation (cfg : Config) (st : BotState) : Prop :=
  sumBalances st + sumOpenSizes st = cfg.totalCapital + st.closedPnLs.sum

/-- The conservation equation the code actually maintains: balances alone
equal total capital plus the realized PnL of all closed trades, because
opening never debits a balance and closing credits only the PnL. -/
def codeConservation (cfg : Config) (st : BotState) : Prop :=
  sumBalances st = cfg.totalCapital + st.closedPnLs.sum

/-- Concrete configuration used for evaluation: the source's defaults
(1.5% stop loss, 0.5% daily target, 5% position share, 10000 capital). -/
def wCfg : Config :=
  { maxTradesPerDay := 3, maxConsecutiveLosses := 3,
    cooldownAfterLoss := 3600000, maxDailyRisk := 1/50,
    stopLossPercent := 3/200, dailyTargetMax := 1/200,
    maxPositionPercent := 1/20, totalCapital := 10000 }

/-- A fresh sub-portfolio as built by `initSubPortfolios` for four slices of
a 10000 capital. -/
def wSub : SubPortfolio :=
  { balance := 2500, initialBalance := 2500, activePositions := 0,
    totalTrades := 0, profitLoss := 0, lastTradeTime := none }

/-- Fresh daily stats as built by `initDailyStats`. -/
def wStats : DailyStats :=
  { date := "2025-07-08", tradesCount := 0, profitLoss := 0, wins := 0,
    losses := 0, winRate := 0 }

/-- A freshly initialized bot state: four sub-portfolios of 2500 each, no
open positions, empty ledger. -/
def cState : BotState :=
  { currentPositions := []
    portfolioIds := ["portfolio_1", "portfolio_2", "portfolio_3", "portfolio_4"]
    portfolios := fun _ => wSub
    dailyStats := wStats
    consecutiveLosses := 0
    lastLossTime := none
    dailyTotalRisk := 0
    closedPnLs := [] }

/-- A LONG position whose stop-loss (99) and take-profit (98) thresholds are
both satisfied at the price 98.5 used in the evaluation. -/
def pBoth : Position :=
  { symbol := "BTCUSDT", portfolioId := "portfolio_1", direction := .BUY,
    entryPrice := 100, quantity := 1/10, positionSize := 10,
    stopLossPrice := 99, takeProfitPrice := 98, timestamp := 0 }

/-- First of three LONG positions that all trigger their stop-loss at the
tick price 90. -/
def p9a : Position :=
  { symbol := "BTCUSDT", portfolioId := "portfolio_1", direction := .BUY,
    entryPrice := 100, quantity := 1/10, positionSize := 10,
    stopLossPrice := 95, takeProfitPrice := 1000, timestamp := 0 }

/-- Second of three LONG positions that all trigger their stop-loss at the
tick price 90. -/
def p9b : Position :=
  { symbol := "BTCUSDT", portfolioId := "portfolio_2", direction := .BUY,
    entryPrice := 200, quantity := 1/10, positionSize := 20,
    stopLossPrice := 95, takeProfitPrice := 1000, timestamp := 0 }

/-- Third of three LONG positions that all trigger their stop-loss at the
tick price 90. -/
def p9c : Position :=
  { symbol := "BTCUSDT", portfolioId := "portfolio_3", direction := .BUY,
    entryPrice := 400, quantity := 1/10, positionSize := 40,
    stopLossPrice := 95, takeProfitPrice := 1000, timestamp := 0 }

/-- Latest close price per symbol for the skip-on-close scenario. -/
def prices9 (s : String) : Option ℚ :=
  if s = "BTCUSDT" then some 90 else none

/-- Bot state holding three adjacent open positions that all satisfy their
stop-loss at the same tick. -/
def st9 : BotState :=
  { cState with currentPositions := [p9a, p9b, p9c] }

/-- Bot state holding exactly two adjacent open positions that both satisfy
their stop-loss at the same tick. -/
def st9Pair : BotState :=
  { cState with currentPositions := [p9a, p9b] }

/-- The first `period` price changes of the series — the window actually used
by this file's `calculateRSI`, whose loop runs i = 1 .. period over changes
prices[i] - prices[i-1]. -/
def rsiFirstWindow (prices : List ℚ) (period : ℕ) : List ℚ :=
  (List.range period).map (fun j => prices.getD (j + 1) 0 - prices.getD j 0)

/-- `calculateRSI` of the attached-asset bot: null when fewer than period + 1
points exist, otherwise simple average gain / average loss over the first
`period` price changes, with average loss 0 mapped to 100. -/
def calculateRSI (prices : List ℚ) (period : ℕ) : Option ℚ :=
  if prices.length < period + 1 then none
  else
    let gains :=
      ((rsiFirstWindow prices period).map (fun c => if 0 < c then c else 0)).sum
    let losses :=
      ((rsiFirstWindow prices period).map
        (fun c => if 0 < c then 0 else |c|)).sum
    let avgGain := gains / (period : ℚ)
    let avgLoss := losses / (period : ℚ)
    if avgLoss = 0 then some 100
    else some (100 - 100 / (1 + avgGain / avgLoss))

/-- `getAvailablePortfolio`: among the sub-portfolios with no active
position, pick the one with the smallest balance (JS `.filter` on
activePositions === 0, `.sort` ascending by balance, first entry), or null
when none is free. -/
def getAvailablePortfolio (st : BotState) : Option String :=
  let portfolios := st.portfolioIds.map (fun id => (id, st.portfolios id))
  let available := (portfolios.filter
      (fun e => e.2.activePositions = 0)).mergeSort
      (fun a b => a.2.balance ≤ b.2.balance)
  (available.head?).map Prod.fst

/-- `canTrade` of the attached-asset bot: five checks must all pass — the
daily trade count below the daily limit, the consecutive losses below the
maximum, the cooldown elapsed (or no loss recorded), the accumulated daily
risk below the daily bound, and an available sub-portfolio. -/
def canTrade (cfg : Config) (st : BotState) (now : ℤ) : Bool :=
  (st.dailyStats.tradesCount < cfg.maxTradesPerDay : Bool) &&
  (st.consecutiveLosses < cfg.maxConsecutiveLosses : Bool) &&
  (match st.lastLossTime with
   | none => true
   | some t => (cfg.cooldownAfterLoss < now - t : Bool)) &&
  (st.dailyTotalRisk < cfg.maxDailyRisk : Bool) &&
  (getAvailablePortfolio st).isSome

/-- The fresh state after three recorded consecutive losses, the last one at
time 0. -/
def cLossState : BotState :=
  { cState with consecutiveLosses := 3, lastLossTime := some 0 }

/-- The availability check of `getAvailablePortfolio` succeeds exactly when
some sub-portfolio has no active position: sorting permutes the filtered
list, so the head exists iff the filter kept something. -/
theorem getAvailablePortfolio_isSome (st : BotState) :
    (getAvailablePortfolio st).isSome = true ↔
      ∃ id ∈ st.portfolioIds, (st.portfolios id).activePositions = 0 := by
  unfold getAvailablePortfolio
  have hmap : ∀ (o : Option (String × SubPortfolio)),
      (o.map Prod.fst).isSome = o.isSome := fun o => by cases o <;> rfl
  rw [hmap, List.head?_isSome, ne_eq]
  have hnil : ∀ (l : List (String × SubPortfolio))
      (le : String × SubPortfolio → String × SubPortfolio → Bool),
      l.mergeSort le = [] ↔ l = [] := by
    intro l le
    constructor
    · intro h
      have hl : (l.mergeSort le).length = l.length := List.length_mergeSort l
      rw [h] at hl
      exact List.length_eq_zero.mp hl.symm
    · intro h
      subst h
      exact List.length_eq_zero.mp (List.length_mergeSort _)
  rw [hnil, List.filter_eq_nil_iff]
  simp [List.mem_map]

end AssetBot

namespace RelayBot

/-- The safety-limit configuration read by `canTrade` in `realistic_bot.js`. -/
structure RiskConfig where
  maxTradesPerDay : ℕ
  maxConsecutiveLosses : ℕ
  cooldownAfterLoss : ℤ
deriving DecidableEq, Repr

/-- The risk counters read by `canTrade`. -/
structure RiskState where
  tradesCount : ℕ
  consecutiveLosses : ℕ
  lastLossTime : Option ℤ
deriving DecidableEq, Repr

/-- `canTrade` of `realistic_bot.js`: all three checks must pass — the daily
trade count below the daily limit, the consecutive losses below the maximum,
and either no recorded loss or the cooldown elapsed since the last one. -/
def canTrade (cfg : RiskConfig) (st : RiskState) (now : ℤ) : Bool :=
  (st.tradesCount < cfg.maxTradesPerDay : Bool) &&
  (st.consecutiveLosses < cfg.maxConsecutiveLosses : Bool) &&
  (match st.lastLossTime with
   | none => true
   | some t => (cfg.cooldownAfterLoss < now - t : Bool))

/-- The daily-stats record built by `initDailyStats` in `realistic_bot.js`. -/
structure DayStats where
  date : String
  tradesCount : ℕ
  profitLoss : ℚ
  fees : ℚ
  winRate : ℚ
  wins : ℕ
  losses : ℕ
  totalRisk : ℚ
deriving DecidableEq, Repr

/-- `initDailyStats`: fresh zeroed stats stamped with the given date. -/
def initDailyStats (today : String) : DayStats :=
  { date := today, tradesCount := 0, profitLoss := 0, fees := 0, winRate := 0,
    wins := 0, losses := 0, totalRisk := 0 }

/-- The slice of the relay bot's state touched or preserved by the daily
rollover: the daily stats plus the loss counters. -/
structure RelayState where
  dailyStats : DayStats
  consecutiveLosses : ℕ
  lastLossTime : Option ℤ
deriving DecidableEq, Repr

/-- `resetDailyStats`: replaces the daily stats with fresh ones when the
stored date differs from today, and touches nothing else. -/
def resetDailyStats (today : String) (st : RelayState) : RelayState :=
  if st.dailyStats.date ≠ today then
    { st with dailyStats := initDailyStats today }
  else st

/-- The trailing window of the last `period` price changes used by
`calculateRSI` in `realistic_bot.js`, whose loop runs
i = length - period .. length - 1 over changes prices[i] - prices[i-1]. -/
def rsiWindow (prices : List ℚ) (period : ℕ) : List ℚ :=
  (List.range period).map (fun j =>
    prices.getD (prices.length - period + j) 0
      - prices.getD (prices.length - period + j - 1) 0)

/-- `calculateRSI` of `realistic_bot.js`: neutral 50 when fewer than
period + 1 points exist, otherwise simple average gain / average loss over
the last `period` price changes, with average loss 0 mapped to 100. -/
def calculateRSI (prices : List ℚ) (period : ℕ) : ℚ :=
  if prices.length < period + 1 then 50
  else
    let gains :=
      ((rsiWindow prices period).map (fun c => if 0 < c then c else 0)).sum
    let losses :=
      ((rsiWindow prices period).map (fun c => if 0 < c then 0 else |c|)).sum
    let avgGain := gains / (period : ℚ)
    let avgLoss := losses / (period : ℚ)
    if avgLoss = 0 then 100
    else 100 - 100 / (1 + avgGain / avgLoss)

/-- Concrete risk configuration with a three-loss limit and a one-hour
cooldown, as in the source defaults. -/
def rCfg : RiskConfig :=
  { maxTradesPerDay := 3, maxConsecutiveLosses := 3,
    cooldownAfterLoss := 3600000 }

/-- Risk state after three consecutive losses, the last one at time 0. -/
def rLossState : RiskState :=
  { tradesCount := 0, consecutiveLosses := 3, lastLossTime := some 0 }

end RelayBot

namespace EnhancedBot

/-- The state slice read and written by `checkSafetyLimits` in the enhanced
bot variant: the persisted daily trade counter with its date stamp, and the
in-memory consecutive-loss counter. -/
structure BotStateE where
  dailyTrades : ℕ
  lastTradeDate : Option String
  consecutiveLosses : ℕ
deriving DecidableEq, Repr

/-- `checkSafetyLimits`: on a date change it zeroes the daily trade counter
and stamps the new date, then blocks trading when the daily counter has
reached the daily limit or the consecutive losses have reached their
maximum.  Returns the updated state and whether trading is allowed. -/
def checkSafetyLimits (dailyTradeLimit maxLosses : ℕ) (today : String)
    (st : BotStateE) : BotStateE × Bool :=
  let st1 :=
    if st.lastTradeDate ≠ some today then
      { st with dailyTrades := 0, lastTradeDate := some today }
    else st
  let blocked :=
    (dailyTradeLimit ≤ st1.dailyTrades : Bool) ||
    (maxLosses ≤ st1.consecutiveLosses : Bool)
  (st1, !blocked)

end EnhancedBot

namespace ConfigManager

/-- The trading section of the configuration, carrying every property of the
registered trading schema (the three required ones — paperTrading,
totalCapital, symbols — and the optional numeric ones are all present and
well-typed in this embedding, which therefore covers exactly the
complete trading-only configurations). -/
structure TradingConfig where
  paperTrading : Bool
  totalCapital : ℚ
  dailyTargetMin : ℚ
  dailyTargetMax : ℚ
  stopLossPercent : ℚ
  maxPositionPercent : ℚ
  subPortfolios : ℕ
  maxTradesPerDay : ℕ
  maxConsecutiveLosses : ℕ
  cooldownAfterLoss : ℤ
  symbols : List String
deriving DecidableEq, Repr

/-- `validateAgainstSchema` applied to the trading schema for a complete
trading section: one error per violated numeric bound and the minItems
check on symbols, in schema property order.  The `minimum: 0` bounds of
dailyTargetMin and dailyTargetMax are skipped because the source guards the
check with the truthiness of the bound (`propSchema.minimum &&`), and 0 is
falsy; maxItems and item patterns are not checked by the source either. -/
def validateTradingSchema (t : TradingConfig) : List String :=
  (if t.totalCapital < 100 then
    ["totalCapital: valeur minimale 100"] else []) ++
  (if (1/10 : ℚ) < t.dailyTargetMin then
    ["dailyTargetMin: valeur maximale 0.1"] else []) ++
  (if (1/10 : ℚ) < t.dailyTargetMax then
    ["dailyTargetMax: valeur maximale 0.1"] else []) ++
  (if t.stopLossPercent < 1/1000 then
    ["stopLossPercent: valeur minimale 0.001"] else []) ++
  (if (1/20 : ℚ) < t.stopLossPercent then
    ["stopLossPercent: valeur maximale 0.05"] else []) ++
  (if t.maxPositionPercent < 1/100 then
    ["maxPositionPercent: valeur minimale 0.01"] else []) ++
  (if (1/5 : ℚ) < t.maxPositionPercent then
    ["maxPositionPercent: valeur maximale 0.2"] else []) ++
  (if t.subPortfolios < 1 then
    ["subPortfolios: valeur minimale 1"] else []) ++
  (if 10 < t.subPortfolios then
    ["subPortfolios: valeur maximale 10"] else []) ++
  (if t.maxTradesPerDay < 1 then
    ["maxTradesPerDay: valeur minimale 1"] else []) ++
  (if 20 < t.maxTradesPerDay then
    ["maxTradesPerDay: valeur maximale 20"] else []) ++
  (if t.maxConsecutiveLosses < 1 then
    ["maxConsecutiveLosses: valeur minimale 1"] else []) ++
  (if 10 < t.maxConsecutiveLosses then
    ["maxConsecutiveLosses: valeur maximale 10"] else []) ++
  (if t.cooldownAfterLoss < 60000 then
    ["cooldownAfterLoss: valeur minimale 60000"] else []) ++
  (if t.symbols.length < 1 then
    ["symbols: minimum 1 elements"] else [])

/-- `validateBusinessRules` for a configuration carrying only the trading
section (no Binance or alert sections): the accumulated error list for the
three trading business rules. -/
def validateBusinessRules (t : TradingConfig) : List String :=
  (if t.dailyTargetMax ≤ t.dailyTargetMin then
    ["dailyTargetMax doit etre superieur a dailyTargetMin"] else []) ++
  (if t.stopLossPercent ≤ t.dailyTargetMax then
    ["stopLossPercent doit etre superieur a dailyTargetMax"] else []) ++
  (if (1/2 : ℚ) < t.maxPositionPercent * (t.maxTradesPerDay : ℚ) then
    ["Exposition totale quotidienne trop elevee (plus de 50%)"] else [])

/-- `validateConfiguration` collects the schema errors of every present
section and then the business-rule errors, and throws exactly when the
combined list is nonempty; for a complete trading-only configuration these
are the trading schema errors followed by the trading business rules. -/
def validateConfigurationThrows (t : TradingConfig) : Bool :=
  !(validateTradingSchema t ++ validateBusinessRules t).isEmpty

/-- A configuration satisfying all three business rules but violating a
trading schema bound: 25% per position breaks the maxPositionPercent ≤ 0.2
bound while 25% × 1 trade stays below the 50% exposure rule. -/
def schemaBoundConfig : TradingConfig :=
  { paperTrading := true, totalCapital := 10000, dailyTargetMin := 3/1000,
    dailyTargetMax := 5/1000, stopLossPercent := 3/200,
    maxPositionPercent := 1/4, subPortfolios := 4, maxTradesPerDay := 1,
    maxConsecutiveLosses := 3, cooldownAfterLoss := 3600000,
    symbols := ["BTCUSDT"] }

/-- A configuration violating the target ordering rule:
dailyTargetMax below dailyTargetMin. -/
def badTargetConfig : TradingConfig :=
  { paperTrading := true, totalCapital := 10000, dailyTargetMin := 3/1000,
    dailyTargetMax := 1/1000, stopLossPercent := 3/200,
    maxPositionPercent := 1/20, subPortfolios := 4, maxTradesPerDay := 3,
    maxConsecutiveLosses := 3, cooldownAfterLoss := 3600000,
    symbols := ["BTCUSDT"] }

end ConfigManager

namespace AssetBot

/-- Claim C3: for every balance, volatility v > 0 and configuration,
`calculatePositionSize` returns
min(balance × maxPositionPercent × clamp(1/v, 0.5, 1.5) × (stopLossPercent / 0.02),
0.1 × balance), and in particular the returned size never exceeds 10% of the
sub-portfolio balance. -/
theorem calculatePositionSize_spec (cfg : Config) (balance volatility : ℚ)
    (hv : 0 < volatility) :
    calculatePositionSize cfg balance volatility =
      min (balance * cfg.maxPositionPercent *
            (max (1/2 : ℚ) (min (3/2 : ℚ) (1 / volatility))) *
            (cfg.stopLossPercent / (2/100 : ℚ)))
          ((1/10 : ℚ) * balance) ∧
    calculatePositionSize cfg balance volatility ≤ (1/10 : ℚ) * balance := by
  constructor
  · unfold calculatePositionSize
    rw [mul_comm balance (1/10 : ℚ)]
  · unfold calculatePositionSize
    rw [mul_comm balance (1/10 : ℚ)]
    exact min_le_right _ _

/-- Witness for C3 at a concrete input: balance 2500, volatility 1,
maxPositionPercent 5%, stopLossPercent 2%. -/
theorem calculatePositionSize_spec_witness :
    (0 : ℚ) < 1 ∧
    (calculatePositionSize
        { maxTradesPerDay := 3, maxConsecutiveLosses := 3,
          cooldownAfterLoss := 3600000, maxDailyRisk := 1/50,
          stopLossPercent := 2/100, dailyTargetMax := 5/1000,
          maxPositionPercent := 5/100, totalCapital := 10000 } 2500 1 =
      min ((2500 : ℚ) * (5/100) * (max (1/2 : ℚ) (min (3/2 : ℚ) (1 / 1))) *
            ((2/100 : ℚ) / (2/100 : ℚ)))
          ((1/10 : ℚ) * 2500) ∧
      calculatePositionSize
        { maxTradesPerDay := 3, maxConsecutiveLosses := 3,
          cooldownAfterLoss := 3600000, maxDailyRisk := 1/50,
          stopLossPercent := 2/100, dailyTargetMax := 5/1000,
          maxPositionPercent := 5/100, totalCapital := 10000 } 2500 1 ≤ (1/10 : ℚ) * 2500) :=
  ⟨by norm_num,
   calculatePositionSize_spec
     { maxTradesPerDay := 3, maxConsecutiveLosses := 3,
       cooldownAfterLoss := 3600000, maxDailyRisk := 1/50,
       stopLossPercent := 2/100, dailyTargetMax := 5/1000,
       maxPositionPercent := 5/100, totalCapital := 10000 } 2500 1
     (by norm_num)⟩

/-- Claim C4: close-condition evaluation has first-match-wins priority —
stop-loss before take-profit before the trailing exit; a LONG stop-loss
triggers exactly when the price is at or below the stop price and a SHORT
one exactly when it is at or above; in particular whenever the stop-loss and
take-profit conditions hold simultaneously, the close reason is STOP_LOSS. -/
theorem evaluateClose_priority (p : Position) (cp : ℚ) (now : ℤ) :
    (p.direction = .BUY → (shouldStopLoss p cp = true ↔ cp ≤ p.stopLossPrice)) ∧
    (p.direction = .SELL → (shouldStopLoss p cp = true ↔ p.stopLossPrice ≤ cp)) ∧
    (shouldStopLoss p cp = true → evaluateClose p now cp = some .STOP_LOSS) ∧
    (shouldStopLoss p cp = false → shouldTakeProfit p cp = true →
      evaluateClose p now cp = some .TAKE_PROFIT) ∧
    (shouldStopLoss p cp = false → shouldTakeProfit p cp = false →
      shouldTrailingStop p now cp = true →
      evaluateClose p now cp = some .TRAILING_STOP) ∧
    (shouldStopLoss p cp = true → shouldTakeProfit p cp = true →
      evaluateClose p now cp = some .STOP_LOSS) := by
  refine ⟨?_, ?_, ?_, ?_, ?_, ?_⟩
  · intro h
    simp [shouldStopLoss, h]
  · intro h
    simp [shouldStopLoss, h]
  · intro h
    simp [evaluateClose, h]
  · intro h1 h2
    simp [evaluateClose, h1, h2]
  · intro h1 h2 h3
    simp [evaluateClose, h1, h2, h3]
  · intro h1 _
    simp [evaluateClose, h1]

/-- Witness for C4: at price 98.5 the concrete LONG position satisfies both
its stop-loss (≤ 99) and take-profit (≥ 98) conditions, and the evaluation
closes it with reason STOP_LOSS. -/
theorem evaluateClose_priority_witness :
    shouldStopLoss pBoth (197/2) = true ∧
    shouldTakeProfit pBoth (197/2) = true ∧
    evaluateClose pBoth 0 (197/2) = some .STOP_LOSS :=
  ⟨by norm_num [shouldStopLoss, pBoth], by norm_num [shouldTakeProfit, pBoth],
   (evaluateClose_priority pBoth (197/2) 0).2.2.2.2.2
     (by norm_num [shouldStopLoss, pBoth])
     (by norm_num [shouldTakeProfit, pBoth])⟩

/-- Summing a pointwise-updated balance map over duplicate-free ids adds the
delta exactly once. -/
theorem sum_map_update (ids : List String) (f g : String → ℚ) (pid : String)
    (d : ℚ) (hmem : pid ∈ ids) (hnd : ids.Nodup)
    (hg : ∀ id, g id = if id = pid then f id + d else f id) :
    (ids.map g).sum = (ids.map f).sum + d := by
  induction ids with
  | nil => cases hmem
  | cons a t ih =>
    rw [List.map_cons, List.map_cons, List.sum_cons, List.sum_cons]
    have ha : a ∉ t := (List.nodup_cons.mp hnd).1
    rcases List.mem_cons.mp hmem with h | h
    · have ht : t.map g = t.map f := by
        apply List.map_congr_left
        intro x hx
        have hxa : x ≠ pid := by
          intro e
          apply ha
          rw [← h, ← e]
          exact hx
        rw [hg x, if_neg hxa]
      rw [hg a, if_pos h.symm, ht]
      ring
    · have hne : a ≠ pid := fun e => ha (e ▸ h)
      rw [hg a, if_neg hne, ih h (List.nodup_cons.mp hnd).2]
      ring

/-- Counterexample to C1: on the freshly initialized state the claimed
equation holds, but after a single `executeTrade` the sum of balances plus
the open position sizes exceeds the total capital, because the source never
debits the sub-portfolio balance when opening. -/
theorem specConservation_cex :
    specConservation wCfg cState ∧
    ¬ specConservation wCfg
        (executeTrade wCfg cState "portfolio_1" "BTCUSDT" .BUY 100 1 0) := by
  constructor
  · simp [specConservation, sumBalances, sumOpenSizes, cState, wSub, wCfg]
    norm_num
  · simp [specConservation, sumBalances, sumOpenSizes, cState, wSub, wCfg,
      executeTrade, calculatePositionSize]
    norm_num [min_def, max_def]

/-- Claim C1 (amended): opening a position leaves every sub-portfolio balance
unchanged, and closing credits the owning sub-portfolio by exactly the
realized PnL (not positionSize + realizedPnL); consequently the conservation
equation the code maintains is sum(balance) = totalCapital +
sum(realizedPnL of closed positions), and it is preserved by both the open
and the close operation. -/
theorem balance_accounting (cfg : Config) (st : BotState) (pid sym : String)
    (dir : Direction) (price vol : ℚ) (now : ℤ) (idx : ℕ) (p : Position)
    (exitPrice : ℚ)
    (hmem : p.portfolioId ∈ st.portfolioIds) (hnd : st.portfolioIds.Nodup) :
    (∀ id, ((executeTrade cfg st pid sym dir price vol now).portfolios id).balance
        = (st.portfolios id).balance) ∧
    (codeConservation cfg st →
      codeConservation cfg (executeTrade cfg st pid sym dir price vol now)) ∧
    (((closePosition st idx p exitPrice now).portfolios p.portfolioId).balance
        = (st.portfolios p.portfolioId).balance
            + calculateUnrealizedPnL p exitPrice) ∧
    (∀ id, id ≠ p.portfolioId →
      ((closePosition st idx p exitPrice now).portfolios id).balance
        = (st.portfolios id).balance) ∧
    (codeConservation cfg st →
      codeConservation cfg (closePosition st idx p exitPrice now)) := by
  have hopen : ∀ id,
      ((executeTrade cfg st pid sym dir price vol now).portfolios id).balance
        = (st.portfolios id).balance := by
    intro id
    by_cases h : id = pid <;> simp [executeTrade, h]
  refine ⟨hopen, ?_, ?_, ?_, ?_⟩
  · intro hc
    unfold codeConservation sumBalances at hc ⊢
    have hids : (executeTrade cfg st pid sym dir price vol now).portfolioIds
        = st.portfolioIds := rfl
    have hledger : (executeTrade cfg st pid sym dir price vol now).closedPnLs
        = st.closedPnLs := rfl
    rw [hids, hledger, List.map_congr_left (fun id _ => hopen id)]
    exact hc
  · simp [closePosition]
  · intro id hne
    simp [closePosition, hne]
  · intro hc
    unfold codeConservation sumBalances at hc ⊢
    have hids : (closePosition st idx p exitPrice now).portfolioIds
        = st.portfolioIds := rfl
    rw [hids,
      sum_map_update st.portfolioIds
        (fun id => (st.portfolios id).balance)
        (fun id => ((closePosition st idx p exitPrice now).portfolios id).balance)
        p.portfolioId (calculateUnrealizedPnL p exitPrice) hmem hnd ?_]
    · have hledger : (closePosition st idx p exitPrice now).closedPnLs
          = st.closedPnLs ++ [calculateUnrealizedPnL p exitPrice] := rfl
      rw [hledger, List.sum_append, List.sum_cons, List.sum_nil, hc]
      ring
    · intro id
      by_cases h : id = p.portfolioId <;> simp [closePosition, h]

/-- Witness for C1 (amended) at a concrete input: closing the concrete LONG
position at 101 credits its 2500 sub-portfolio by exactly the realized PnL,
and opening does not change any balance. -/
theorem balance_accounting_witness :
    ((executeTrade wCfg cState "portfolio_1" "BTCUSDT" .BUY 100 1 5).portfolios
        "portfolio_2").balance = ((cState.portfolios "portfolio_2").balance) ∧
    ((closePosition cState 0 pBoth 101 5).portfolios "portfolio_1").balance
      = ((cState.portfolios "portfolio_1").balance
          + calculateUnrealizedPnL pBoth 101) :=
  ⟨(balance_accounting wCfg cState "portfolio_1" "BTCUSDT" .BUY 100 1 5 0 pBoth
      101 (by simp [pBoth, cState]) (by simp [cState])).1 "portfolio_2",
   (balance_accounting wCfg cState "portfolio_1" "BTCUSDT" .BUY 100 1 5 0 pBoth
      101 (by simp [pBoth, cState]) (by simp [cState])).2.2.1⟩

/-- Claim C8: closing a trade with realized PnL exactly 0 is accounted as a
loss — the loss counter and the consecutive-loss counter are incremented and
the last-loss timestamp is set to the close time — while only a strictly
positive realized PnL counts as a win and resets the consecutive-loss
counter to 0. -/
theorem closePosition_zero_pnl (st : BotState) (idx : ℕ) (p : Position)
    (exitPrice : ℚ) (now : ℤ) :
    (calculateUnrealizedPnL p exitPrice = 0 →
      (closePosition st idx p exitPrice now).dailyStats.losses
          = st.dailyStats.losses + 1 ∧
      (closePosition st idx p exitPrice now).dailyStats.wins
          = st.dailyStats.wins ∧
      (closePosition st idx p exitPrice now).consecutiveLosses
          = st.consecutiveLosses + 1 ∧
      (closePosition st idx p exitPrice now).lastLossTime = some now) ∧
    (0 < calculateUnrealizedPnL p exitPrice →
      (closePosition st idx p exitPrice now).dailyStats.wins
          = st.dailyStats.wins + 1 ∧
      (closePosition st idx p exitPrice now).dailyStats.losses
          = st.dailyStats.losses ∧
      (closePosition st idx p exitPrice now).consecutiveLosses = 0 ∧
      (closePosition st idx p exitPrice now).lastLossTime = st.lastLossTime) := by
  constructor
  · intro h
    simp [closePosition, h]
  · intro h
    simp [closePosition, h]

/-- Witness for C8: closing the concrete LONG position at its entry price
gives realized PnL 0, which increments the consecutive-loss counter and
stamps the loss time. -/
theorem closePosition_zero_pnl_witness :
    (closePosition cState 0 pBoth 100 7).dailyStats.losses
        = cState.dailyStats.losses + 1 ∧
    (closePosition cState 0 pBoth 100 7).consecutiveLosses
        = cState.consecutiveLosses + 1 ∧
    (closePosition cState 0 pBoth 100 7).lastLossTime = some 7 := by
  have h := (closePosition_zero_pnl cState 0 pBoth 100 7).1
    (by norm_num [calculateUnrealizedPnL, pBoth])
  exact ⟨h.1, h.2.2.1, h.2.2.2⟩

/-- A scan step at an index holding a position whose close condition fires
removes that position in place and appends its realized PnL to the ledger. -/
theorem manageStep_close (prices : String → Option ℚ) (now : ℤ)
    (st : BotState) (k : ℕ) (p : Position) (c : ℚ)
    (h1 : st.currentPositions[k]? = some p) (h2 : prices p.symbol = some c)
    (h3 : (evaluateClose p now c).isSome = true) :
    (manageStep prices now st k).currentPositions
        = st.currentPositions.eraseIdx k ∧
    (manageStep prices now st k).closedPnLs
        = st.closedPnLs ++ [calculateUnrealizedPnL p c] := by
  obtain ⟨r, hr⟩ := Option.isSome_iff_exists.mp h3
  unfold manageStep
  rw [h1]
  dsimp only
  rw [h2]
  dsimp only
  rw [hr]
  exact ⟨rfl, rfl⟩

/-- A scan step at an index past the end of the live position list leaves the
state unchanged. -/
theorem manageStep_skip (prices : String → Option ℚ) (now : ℤ)
    (st : BotState) (k : ℕ) (h : st.currentPositions[k]? = none) :
    manageStep prices now st k = st := by
  unfold manageStep
  rw [h]

/-- Counterexample to C9: with three adjacent open positions that all satisfy
their stop-loss at the same tick, the scan closes the first and the third and
skips the second — so for the adjacent pair formed by the second and third
positions, which both satisfy a close condition, it is the second of the
pair that is closed on that tick while the first of the pair stays open. -/
theorem managePositions_skip_cex :
    (evaluateClose p9b 0 90).isSome = true ∧
    (evaluateClose p9c 0 90).isSome = true ∧
    st9.currentPositions = [p9a, p9b, p9c] ∧
    (managePositions prices9 0 st9).currentPositions = [p9b] ∧
    (managePositions prices9 0 st9).closedPnLs = [-1, -31] := by
  have hb : (evaluateClose p9b 0 90).isSome = true := by
    norm_num [evaluateClose, shouldStopLoss, p9b]
  have hc : (evaluateClose p9c 0 90).isSome = true := by
    norm_num [evaluateClose, shouldStopLoss, p9c]
  have ha : (evaluateClose p9a 0 90).isSome = true := by
    norm_num [evaluateClose, shouldStopLoss, p9a]
  have hfold : managePositions prices9 0 st9
      = manageStep prices9 0
          (manageStep prices9 0 (manageStep prices9 0 st9 0) 1) 2 := by
    unfold managePositions
    rfl
  have h0 := manageStep_close prices9 0 st9 0 p9a 90 rfl rfl ha
  have h0cur : (manageStep prices9 0 st9 0).currentPositions = [p9b, p9c] := by
    rw [h0.1]
    rfl
  have h1 := manageStep_close prices9 0 (manageStep prices9 0 st9 0) 1 p9c 90
    (by rw [h0cur]; rfl) rfl hc
  have h1cur :
      (manageStep prices9 0
        (manageStep prices9 0 st9 0) 1).currentPositions = [p9b] := by
    rw [h1.1, h0cur]
    rfl
  have h2 := manageStep_skip prices9 0
    (manageStep prices9 0 (manageStep prices9 0 st9 0) 1) 2 (by rw [h1cur]; rfl)
  refine ⟨hb, hc, rfl, ?_, ?_⟩
  · rw [hfold, h2, h1cur]
  · rw [hfold, h2, h1.2, h0.2]
    have hpa : calculateUnrealizedPnL p9a 90 = -1 := by
      norm_num [calculateUnrealizedPnL, p9a]
    have hpc : calculateUnrealizedPnL p9c 90 = -31 := by
      norm_num [calculateUnrealizedPnL, p9c]
    rw [hpa, hpc]
    rfl

/-- Claim C9 (amended): when a position is closed at index i the element that
followed it shifts into index i and is skipped for the rest of the tick; in
particular when the open-position array consists of exactly two adjacent
positions that both satisfy a close condition at the tick (no earlier close
having shifted the array), only the first is closed on that tick and the
second is left open, not evaluated until a later tick. -/
theorem managePositions_pair (st : BotState) (p q : Position)
    (prices : String → Option ℚ) (now : ℤ) (cp cq : ℚ)
    (hst : st.currentPositions = [p, q])
    (hp : prices p.symbol = some cp) (hq : prices q.symbol = some cq)
    (hcp : (evaluateClose p now cp).isSome = true)
    (hcq : (evaluateClose q now cq).isSome = true) :
    (managePositions prices now st).currentPositions = [q] ∧
    (managePositions prices now st).closedPnLs
      = st.closedPnLs ++ [calculateUnrealizedPnL p cp] := by
  have hfold : managePositions prices now st
      = manageStep prices now (manageStep prices now st 0) 1 := by
    unfold managePositions
    rw [hst]
    rfl
  have h0 := manageStep_close prices now st 0 p cp (by rw [hst]; rfl) hp hcp
  have h0cur : (manageStep prices now st 0).currentPositions = [q] := by
    rw [h0.1, hst]
    rfl
  have h1 := manageStep_skip prices now (manageStep prices now st 0) 1
    (by rw [h0cur]; rfl)
  refine ⟨?_, ?_⟩
  · rw [hfold, h1, h0cur]
  · rw [hfold, h1, h0.2]

/-- Witness for C9 (amended): with exactly the two adjacent triggering
positions open, only the first is closed on the tick and the second stays. -/
theorem managePositions_pair_witness :
    (managePositions prices9 0 st9Pair).currentPositions = [p9b] ∧
    (managePositions prices9 0 st9Pair).closedPnLs
      = st9Pair.closedPnLs ++ [calculateUnrealizedPnL p9a 90] :=
  managePositions_pair st9Pair p9a p9b prices9 0 90 90 rfl rfl rfl
    (by norm_num [evaluateClose, shouldStopLoss, p9a])
    (by norm_num [evaluateClose, shouldStopLoss, p9b])

end AssetBot

namespace RelayBot

/-- Counterexample to C2: with `maxConsecutiveLosses = 3` and three recorded
consecutive losses whose last loss happened at time 0, the gate is still
closed at a time far beyond the one-hour cooldown — elapsing the cooldown
does not reopen the gate, because the consecutive-loss check has no time
component. -/
theorem canTrade_cooldown_cex :
    (1000000000 : ℤ) - 0 > rCfg.cooldownAfterLoss ∧
    canTrade rCfg rLossState 1000000000 = false := by
  constructor
  · norm_num [rCfg]
  · norm_num [canTrade, rCfg, rLossState]

/-- Claim C2 (amended): once `consecutiveLosses` has reached
`maxConsecutiveLosses`, the gate returns false for every subsequent check
regardless of the signal or of how much time has passed since the last loss
— in both cited implementations, the three-check `canTrade` of
`realistic_bot.js` and the five-check `canTrade` of the attached-asset bot;
each gate is true exactly when all of its own checks pass (daily limit,
consecutive losses and cooldown for the former; additionally the daily-risk
bound and an available sub-portfolio for the latter), so after the loss
streak the gate reopens only when the consecutive-loss counter drops below
the maximum again and every other check passes. -/
theorem canTrade_spec (cfg : RiskConfig) (st : RiskState) (now : ℤ)
    (h : cfg.maxConsecutiveLosses ≤ st.consecutiveLosses) :
    canTrade cfg st now = false ∧
    (∀ (acfg : AssetBot.Config) (ast : AssetBot.BotState) (anow : ℤ),
      acfg.maxConsecutiveLosses ≤ ast.consecutiveLosses →
      AssetBot.canTrade acfg ast anow = false) ∧
    (∀ (now2 : ℤ) (st2 : RiskState), canTrade cfg st2 now2 = true ↔
      (st2.tradesCount < cfg.maxTradesPerDay ∧
       st2.consecutiveLosses < cfg.maxConsecutiveLosses ∧
       (st2.lastLossTime = none ∨
        ∃ t, st2.lastLossTime = some t ∧ cfg.cooldownAfterLoss < now2 - t))) ∧
    (∀ (acfg : AssetBot.Config) (ast : AssetBot.BotState) (anow : ℤ),
      AssetBot.canTrade acfg ast anow = true ↔
      (ast.dailyStats.tradesCount < acfg.maxTradesPerDay ∧
       ast.consecutiveLosses < acfg.maxConsecutiveLosses ∧
       (ast.lastLossTime = none ∨
        ∃ t, ast.lastLossTime = some t ∧ acfg.cooldownAfterLoss < anow - t) ∧
       ast.dailyTotalRisk < acfg.maxDailyRisk ∧
       (∃ id ∈ ast.portfolioIds,
         (ast.portfolios id).activePositions = 0))) := by
  refine ⟨?_, ?_, ?_, ?_⟩
  · have hn : ¬ (st.consecutiveLosses < cfg.maxConsecutiveLosses) :=
      not_lt.mpr h
    simp [canTrade, hn]
  · intro acfg ast anow ha
    have hn : ¬ (ast.consecutiveLosses < acfg.maxConsecutiveLosses) :=
      not_lt.mpr ha
    simp [AssetBot.canTrade, hn]
  · intro now2 st2
    cases hl : st2.lastLossTime with
    | none => simp [canTrade, hl]
    | some t => simp [canTrade, hl, and_assoc]
  · intro acfg ast anow
    cases hl : ast.lastLossTime with
    | none =>
      simp [AssetBot.canTrade, hl, AssetBot.getAvailablePortfolio_isSome,
        and_assoc]
    | some t =>
      simp [AssetBot.canTrade, hl, AssetBot.getAvailablePortfolio_isSome,
        and_assoc]

/-- Witness for C2 (amended): at the concrete three-loss states both gates
are closed even a long time after the last loss, and the three-check gate
characterization holds at a concrete state that passes all its checks. -/
theorem canTrade_spec_witness :
    canTrade rCfg rLossState 1000000000 = false ∧
    AssetBot.canTrade AssetBot.wCfg AssetBot.cLossState 1000000000 = false ∧
    canTrade rCfg
      { tradesCount := 0, consecutiveLosses := 0, lastLossTime := none }
      0 = true := by
  have h := canTrade_spec rCfg rLossState 1000000000
    (by norm_num [rCfg, rLossState])
  refine ⟨h.1, ?_, ?_⟩
  · exact h.2.1 AssetBot.wCfg AssetBot.cLossState 1000000000
      (by norm_num [AssetBot.wCfg, AssetBot.cLossState, AssetBot.cState])
  · exact (h.2.2.1 0 ⟨0, 0, none⟩).mpr (by norm_num [rCfg])

end RelayBot

/-- Counterexample to C5: the attached-asset `calculateRSI` evaluates the
first `period` price changes, not the trailing window, and returns null
rather than 50 on short input — on the series [1, 2, 1, 1] with period 2 it
keeps the leading rise and yields 50, while the trailing-window computation
of `realistic_bot.js` sees only the fall and the flat step and yields 0. -/
theorem calculateRSI_window_cex :
    AssetBot.calculateRSI [1, 2, 1, 1] 2 = some 50 ∧
    RelayBot.calculateRSI [1, 2, 1, 1] 2 = 0 ∧
    some (RelayBot.calculateRSI [1, 2, 1, 1] 2)
      ≠ AssetBot.calculateRSI [1, 2, 1, 1] 2 ∧
    AssetBot.calculateRSI [1] 14 = none := by
  have hwa : AssetBot.rsiFirstWindow [1, 2, 1, 1] 2 = [2 - 1, 1 - 2] := rfl
  have hwr : RelayBot.rsiWindow [1, 2, 1, 1] 2 = [1 - 2, 1 - 1] := rfl
  have h1 : AssetBot.calculateRSI [1, 2, 1, 1] 2 = some 50 := by
    norm_num [AssetBot.calculateRSI, hwa]
  have h2 : RelayBot.calculateRSI [1, 2, 1, 1] 2 = 0 := by
    norm_num [RelayBot.calculateRSI, hwr]
  refine ⟨h1, h2, ?_, ?_⟩
  · rw [h1, h2]
    norm_num
  · norm_num [AssetBot.calculateRSI]

/-- Claim C5 (amended): the `calculateRSI` of `realistic_bot.js` is the
simple average-gain/average-loss RSI over the last `period` price changes —
its value is unchanged by prepending any prefix to a series that already
has period + 1 points, so it depends only on the trailing window — and it
returns the neutral 50 when fewer than period + 1 points exist; the
attached-asset variant instead evaluates the first `period` changes and
returns null on short input. -/
theorem calculateRSI_trailing (prices pre : List ℚ) (period : ℕ) :
    (prices.length < period + 1 → RelayBot.calculateRSI prices period = 50) ∧
    (prices.length = period + 1 →
      RelayBot.calculateRSI (pre ++ prices) period
        = RelayBot.calculateRSI prices period) := by
  constructor
  · intro h
    unfold RelayBot.calculateRSI
    rw [if_pos h]
  · intro h
    have hw : RelayBot.rsiWindow (pre ++ prices) period
        = RelayBot.rsiWindow prices period := by
      unfold RelayBot.rsiWindow
      apply List.map_congr_left
      intro j hj
      have hjlt : j < period := List.mem_range.mp hj
      have hlen : (pre ++ prices).length = pre.length + (period + 1) := by
        rw [List.length_append, h]
      have e1 : (pre ++ prices).length - period + j
          = pre.length + (1 + j) := by omega
      have e2 : (pre ++ prices).length - period + j - 1
          = pre.length + j := by omega
      have e3 : prices.length - period + j = 1 + j := by omega
      have e4 : prices.length - period + j - 1 = j := by omega
      rw [e2, e1, e4, e3,
        List.getD_append_right pre prices 0 (pre.length + (1 + j))
          (Nat.le_add_right _ _),
        List.getD_append_right pre prices 0 (pre.length + j)
          (Nat.le_add_right _ _)]
      have e5 : pre.length + (1 + j) - pre.length = 1 + j := by omega
      have e6 : pre.length + j - pre.length = j := by omega
      rw [e5, e6]
    have hlong : ¬ ((pre ++ prices).length < period + 1) := by
      rw [List.length_append, h]
      omega
    have hlong2 : ¬ (prices.length < period + 1) := by omega
    unfold RelayBot.calculateRSI
    rw [if_neg hlong, if_neg hlong2, hw]

/-- Witness for C5 (amended): a one-point series yields the neutral 50, and
prepending a prefix to a four-point series does not change the period-3 RSI. -/
theorem calculateRSI_trailing_witness :
    RelayBot.calculateRSI [1] 14 = 50 ∧
    RelayBot.calculateRSI ([100] ++ [1, 2, 1, 1]) 3
      = RelayBot.calculateRSI [1, 2, 1, 1] 3 :=
  ⟨(calculateRSI_trailing [1] [] 14).1 (by norm_num),
   (calculateRSI_trailing [1, 2, 1, 1] [100] 3).2 (by norm_num)⟩

/-- Claim C10: the RSI computation is total despite the internal division —
whenever the series has at least period + 1 points and every price change in
the evaluated window is non-negative, the average loss is 0 and the explicit
guard returns exactly 100 (the division by the average loss is taken only in
the branch where it is nonzero); this holds for the trailing-window RSI of
`realistic_bot.js` and for the first-window RSI of the attached-asset bot. -/
theorem calculateRSI_guard (prices : List ℚ) (period : ℕ)
    (hlen : period + 1 ≤ prices.length)
    (hpos : ∀ c ∈ RelayBot.rsiWindow prices period, 0 ≤ c)
    (hpos2 : ∀ c ∈ AssetBot.rsiFirstWindow prices period, 0 ≤ c) :
    RelayBot.calculateRSI prices period = 100 ∧
    AssetBot.calculateRSI prices period = some 100 := by
  have hzero : ∀ (w : List ℚ), (∀ c ∈ w, 0 ≤ c) →
      ((w.map (fun c => if 0 < c then 0 else |c|)).sum : ℚ) = 0 := by
    intro w hw
    apply List.sum_eq_zero
    intro x hx
    rcases List.mem_map.mp hx with ⟨c, hc, rfl⟩
    rcases lt_or_eq_of_le (hw c hc) with hlt | heq
    · rw [if_pos hlt]
    · rw [if_neg (by rw [← heq]; exact lt_irrefl 0), ← heq, abs_zero]
  have hshort : ¬ (prices.length < period + 1) := by omega
  constructor
  · unfold RelayBot.calculateRSI
    rw [if_neg hshort]
    simp [hzero _ hpos, zero_div]
  · unfold AssetBot.calculateRSI
    rw [if_neg hshort]
    simp [hzero _ hpos2, zero_div]

/-- Witness for C10: on the strictly increasing series [1, 2, 3] with period
2 both RSI variants return exactly 100. -/
theorem calculateRSI_guard_witness :
    RelayBot.calculateRSI [1, 2, 3] 2 = 100 ∧
    AssetBot.calculateRSI [1, 2, 3] 2 = some 100 := by
  have hwr : RelayBot.rsiWindow [1, 2, 3] 2 = [2 - 1, 3 - 2] := rfl
  have hwa : AssetBot.rsiFirstWindow [1, 2, 3] 2 = [2 - 1, 3 - 2] := rfl
  exact calculateRSI_guard [1, 2, 3] 2 (by norm_num)
    (by
      intro c hc
      rw [hwr] at hc
      rcases List.mem_cons.mp hc with h | hc2
      · rw [h]; norm_num
      · rcases List.mem_cons.mp hc2 with h | hc3
        · rw [h]; norm_num
        · cases hc3)
    (by
      intro c hc
      rw [hwa] at hc
      rcases List.mem_cons.mp hc with h | hc2
      · rw [h]; norm_num
      · rcases List.mem_cons.mp hc2 with h | hc3
        · rw [h]; norm_num
        · cases hc3)

/-- Claim C6: at the first gate check of a new calendar day (detected by the
date-string comparison) the daily trade counter resets to 0 and the date
stamp advances, while the consecutive-loss counter is never changed by the
gate check, and the relay bot's daily rollover likewise preserves the
consecutive-loss counter and the last-loss cooldown timestamp while zeroing
the daily trade count. -/
theorem daily_rollover (lim maxL : ℕ) (today : String)
    (st : EnhancedBot.BotStateE) (rst : RelayBot.RelayState)
    (hnew : st.lastTradeDate ≠ some today) :
    (EnhancedBot.checkSafetyLimits lim maxL today st).1.dailyTrades = 0 ∧
    (EnhancedBot.checkSafetyLimits lim maxL today st).1.lastTradeDate
        = some today ∧
    (∀ st2 : EnhancedBot.BotStateE,
      (EnhancedBot.checkSafetyLimits lim maxL today st2).1.consecutiveLosses
        = st2.consecutiveLosses) ∧
    (RelayBot.resetDailyStats today rst).consecutiveLosses
        = rst.consecutiveLosses ∧
    (RelayBot.resetDailyStats today rst).lastLossTime = rst.lastLossTime ∧
    (rst.dailyStats.date ≠ today →
      (RelayBot.resetDailyStats today rst).dailyStats.tradesCount = 0) := by
  refine ⟨?_, ?_, ?_, ?_, ?_, ?_⟩
  · simp [EnhancedBot.checkSafetyLimits, hnew]
  · simp [EnhancedBot.checkSafetyLimits, hnew]
  · intro st2
    by_cases h : st2.lastTradeDate ≠ some today <;>
      simp [EnhancedBot.checkSafetyLimits, h]
  · by_cases h : rst.dailyStats.date ≠ today <;>
      simp [RelayBot.resetDailyStats, h]
  · by_cases h : rst.dailyStats.date ≠ today <;>
      simp [RelayBot.resetDailyStats, h]
  · intro h
    simp [RelayBot.resetDailyStats, h, RelayBot.initDailyStats]

/-- Witness for C6: a gate check on 2025-07-08 with a state stamped
2025-07-07 zeroes the daily trade counter but keeps two consecutive losses,
and the relay rollover keeps the loss counter and the loss timestamp. -/
theorem daily_rollover_witness :
    (EnhancedBot.checkSafetyLimits 3 3 "2025-07-08"
      ⟨5, some "2025-07-07", 2⟩).1.dailyTrades = 0 ∧
    (EnhancedBot.checkSafetyLimits 3 3 "2025-07-08"
      ⟨5, some "2025-07-07", 2⟩).1.consecutiveLosses = 2 ∧
    (RelayBot.resetDailyStats "2025-07-08"
      ⟨⟨"2025-07-07", 4, 1, 0, 0, 1, 3, 0⟩, 2, some 42⟩).consecutiveLosses
        = 2 ∧
    (RelayBot.resetDailyStats "2025-07-08"
      ⟨⟨"2025-07-07", 4, 1, 0, 0, 1, 3, 0⟩, 2, some 42⟩).lastLossTime
        = some 42 := by
  have h := daily_rollover 3 3 "2025-07-08" ⟨5, some "2025-07-07", 2⟩
    ⟨⟨"2025-07-07", 4, 1, 0, 0, 1, 3, 0⟩, 2, some 42⟩ (by decide)
  exact ⟨h.1, h.2.2.1 ⟨5, some "2025-07-07", 2⟩, h.2.2.2.1, h.2.2.2.2.1⟩

/-- Counterexample to C7: a complete trading configuration satisfying both
named ordering rules — and even the 50% exposure rule — still makes
validation throw, because maxPositionPercent = 0.25 violates the trading
schema bound maxPositionPercent ≤ 0.2 that `validateConfiguration` also
checks; so validation does not throw *exactly* when one of the two named
business rules is violated. -/
theorem validateConfiguration_cex :
    ¬ (ConfigManager.schemaBoundConfig.dailyTargetMax
        ≤ ConfigManager.schemaBoundConfig.dailyTargetMin) ∧
    ¬ (ConfigManager.schemaBoundConfig.stopLossPercent
        ≤ ConfigManager.schemaBoundConfig.dailyTargetMax) ∧
    ¬ ((1/2 : ℚ) < ConfigManager.schemaBoundConfig.maxPositionPercent
        * (ConfigManager.schemaBoundConfig.maxTradesPerDay : ℚ)) ∧
    ConfigManager.validateConfigurationThrows ConfigManager.schemaBoundConfig
      = true := by
  refine ⟨?_, ?_, ?_, ?_⟩
  · norm_num [ConfigManager.schemaBoundConfig]
  · norm_num [ConfigManager.schemaBoundConfig]
  · norm_num [ConfigManager.schemaBoundConfig]
  · simp [ConfigManager.validateConfigurationThrows,
      ConfigManager.validateTradingSchema,
      ConfigManager.validateBusinessRules, ConfigManager.schemaBoundConfig]
    norm_num

/-- Claim C7 (amended): validation rejects, fatally at startup, any trading
configuration with dailyTargetMax ≤ dailyTargetMin or
stopLossPercent ≤ dailyTargetMax — if at least one of these rules is
violated it throws — but not only then: for a complete trading-only
configuration it throws exactly when one of the trading schema bounds
(totalCapital ≥ 100, dailyTargetMin ≤ 0.1, dailyTargetMax ≤ 0.1,
stopLossPercent in [0.001, 0.05], maxPositionPercent in [0.01, 0.2],
subPortfolios in [1, 10], maxTradesPerDay in [1, 20], maxConsecutiveLosses
in [1, 10], cooldownAfterLoss ≥ 60000, at least one symbol) or one of the
three business rules (the two named ones, or daily exposure above 50%) is
violated. -/
theorem validateBusinessRules_spec (t : ConfigManager.TradingConfig) :
    (t.dailyTargetMax ≤ t.dailyTargetMin ∨ t.stopLossPercent ≤ t.dailyTargetMax →
      ConfigManager.validateConfigurationThrows t = true) ∧
    (ConfigManager.validateConfigurationThrows t = true ↔
      (t.totalCapital < 100 ∨
       (1/10 : ℚ) < t.dailyTargetMin ∨
       (1/10 : ℚ) < t.dailyTargetMax ∨
       t.stopLossPercent < 1/1000 ∨
       (1/20 : ℚ) < t.stopLossPercent ∨
       t.maxPositionPercent < 1/100 ∨
       (1/5 : ℚ) < t.maxPositionPercent ∨
       t.subPortfolios < 1 ∨
       10 < t.subPortfolios ∨
       t.maxTradesPerDay < 1 ∨
       20 < t.maxTradesPerDay ∨
       t.maxConsecutiveLosses < 1 ∨
       10 < t.maxConsecutiveLosses ∨
       t.cooldownAfterLoss < 60000 ∨
       t.symbols.length < 1 ∨
       t.dailyTargetMax ≤ t.dailyTargetMin ∨
       t.stopLossPercent ≤ t.dailyTargetMax ∨
       (1/2 : ℚ) < t.maxPositionPercent * (t.maxTradesPerDay : ℚ))) := by
  have hnil : ∀ (c : Prop) [inst : Decidable c] (m : String),
      ((if c then [m] else []) = ([] : List String)) ↔ ¬ c := by
    intro c inst m
    by_cases hc : c <;> simp [hc]
  have key : ConfigManager.validateConfigurationThrows t = true ↔
      (t.totalCapital < 100 ∨
       (1/10 : ℚ) < t.dailyTargetMin ∨
       (1/10 : ℚ) < t.dailyTargetMax ∨
       t.stopLossPercent < 1/1000 ∨
       (1/20 : ℚ) < t.stopLossPercent ∨
       t.maxPositionPercent < 1/100 ∨
       (1/5 : ℚ) < t.maxPositionPercent ∨
       t.subPortfolios < 1 ∨
       10 < t.subPortfolios ∨
       t.maxTradesPerDay < 1 ∨
       20 < t.maxTradesPerDay ∨
       t.maxConsecutiveLosses < 1 ∨
       10 < t.maxConsecutiveLosses ∨
       t.cooldownAfterLoss < 60000 ∨
       t.symbols.length < 1 ∨
       t.dailyTargetMax ≤ t.dailyTargetMin ∨
       t.stopLossPercent ≤ t.dailyTargetMax ∨
       (1/2 : ℚ) < t.maxPositionPercent * (t.maxTradesPerDay : ℚ)) := by
    unfold ConfigManager.validateConfigurationThrows
      ConfigManager.validateTradingSchema ConfigManager.validateBusinessRules
    rw [Bool.not_eq_true', List.isEmpty_eq_false, ne_eq]
    simp only [List.append_eq_nil, hnil]
    simp only [not_and_or, not_not, or_assoc]
  refine ⟨?_, key⟩
  intro h
  rcases h with h | h <;> exact key.mpr (by simp [h])

/-- Witness for C7 (amended): a complete configuration whose dailyTargetMax
is below dailyTargetMin makes validation throw. -/
theorem validateBusinessRules_spec_witness :
    ConfigManager.validateConfigurationThrows ConfigManager.badTargetConfig
      = true :=
  (validateBusinessRules_spec ConfigManager.badTargetConfig).1
    (Or.inl (by norm_num [ConfigManager.badTargetConfig]))
